import Mathlib

/-!
Verification of the onvif-to-usd pipeline against its specification.

The Python sources are shallowly embedded: each module becomes a Lean
namespace, external effects (subprocess results, stream reads, the
filesystem) become explicit environment data, and the module functions
become pure Lean functions over those environments.
-/

namespace Photogrammetry

/-- Result of one synchronous subprocess invocation, as `subprocess.run`
returns it to `ColmapWrapper.run_command` (src/photogrammetry.py). -/
structure CompletedProcess where
  returncode : Int
  stderr : String

/-- `ColmapWrapper.run_command`: classify the invocation as success
exactly when the exit status is zero. -/
def run_command (result : CompletedProcess) : Bool :=
  result.returncode == 0

/-- The six fixed COLMAP stages of `ColmapWrapper.run_pipeline`. -/
inductive Stage
  | featureExtraction
  | featureMatching
  | sparseReconstruction
  | imageUndistortion
  | stereoMatching
  | stereoFusion
deriving DecidableEq, Repr

/-- The fixed `steps` list of `ColmapWrapper.run_pipeline`, in source order. -/
def stageOrder : List Stage :=
  [Stage.featureExtraction, Stage.featureMatching, Stage.sparseReconstruction,
   Stage.imageUndistortion, Stage.stereoMatching, Stage.stereoFusion]

/-- Zero-based numbering of the stage sequence (stage 1 of the spec is
index 0 here). -/
def stageAt : Nat → Stage
  | 0 => Stage.featureExtraction
  | 1 => Stage.featureMatching
  | 2 => Stage.sparseReconstruction
  | 3 => Stage.imageUndistortion
  | 4 => Stage.stereoMatching
  | _ => Stage.stereoFusion

/-- Environment of one `run_pipeline` call: the subprocess outcome each
stage invocation would produce, and whether `dense/fused.ply` exists when
the final existence check runs. -/
structure Env where
  proc : Stage → CompletedProcess
  fusedPlyExists : Bool

/-- A stage function (`feature_extraction`, ..., `stereo_fusion`) reports
the `run_command` classification of its subprocess invocation. -/
def stageOk (env : Env) (s : Stage) : Bool :=
  run_command (env.proc s)

/-- The stage loop of `run_pipeline`: run stages in order, stop at the
first failure.  Returns the list of stages actually invoked together with
the all-succeeded flag. -/
def runStages (res : Stage → Bool) : List Stage → List Stage × Bool
  | [] => ([], true)
  | s :: rest =>
    if res s then
      let r := runStages res rest
      (s :: r.1, r.2)
    else ([s], false)

/-- `ColmapWrapper.run_pipeline`: all stages must succeed in order, and
afterwards the terminal output file `dense/fused.ply` must exist. -/
def run_pipeline (env : Env) : Bool :=
  (runStages (stageOk env) stageOrder).2 && env.fusedPlyExists

/-- The stages `run_pipeline` actually invoked, in order. -/
def pipelineTrace (env : Env) : List Stage :=
  (runStages (stageOk env) stageOrder).1

lemma runStages_snd_eq_all (res : Stage → Bool) :
    ∀ l : List Stage, (runStages res l).2 = l.all res := by
  intro l
  induction l with
  | nil => rfl
  | cons s rest ih =>
    by_cases h : res s = true
    · simp [runStages, h, ih]
    · simp only [Bool.not_eq_true] at h
      simp [runStages, h]

/-- Environment in which every stage's subprocess exits 0 but the terminal
output file `dense/fused.ply` is absent afterwards. -/
def allOkNoFile : Env :=
  { proc := fun _ => { returncode := 0, stderr := "" }, fusedPlyExists := false }

/-- C1: `run_pipeline` returns success if and only if every one of the six
stage invocations reports success and the terminal file `dense/fused.ply`
exists afterwards; in particular, when all six stages report success but
the terminal file is absent, `run_pipeline` returns failure. -/
theorem run_pipeline_success_iff (env : Env) :
    (run_pipeline env = true ↔
      ((∀ s ∈ stageOrder, stageOk env s = true) ∧ env.fusedPlyExists = true)) ∧
    ((∀ s ∈ stageOrder, stageOk env s = true) → env.fusedPlyExists = false →
      run_pipeline env = false) := by
  have hall : run_pipeline env = ((stageOrder.all (stageOk env)) && env.fusedPlyExists) := by
    unfold run_pipeline
    rw [runStages_snd_eq_all]
  constructor
  · rw [hall]
    simp [List.all_eq_true]
  · intro hs hf
    rw [hall, hf]
    simp

/-- Witness for C1: with all six stages exiting 0 and the file absent, the
pipeline reports failure. -/
theorem run_pipeline_success_iff_witness : run_pipeline allOkNoFile = false :=
  (run_pipeline_success_iff allOkNoFile).2 (by decide) rfl

/-- C2: if stage `k` (zero-based) is the first stage to fail, the pipeline
invokes stages `0..k` exactly once each in order, never invokes stages
`k+1..5`, and reports failure — regardless of whether `dense/fused.ply`
already exists in the workspace. -/
theorem run_pipeline_first_failure (env : Env) (k : Nat) (hk : k < 6)
    (hbefore : ∀ i, i < k → stageOk env (stageAt i) = true)
    (hfail : stageOk env (stageAt k) = false) :
    pipelineTrace env = stageOrder.take (k + 1) ∧
    run_pipeline env = false ∧
    (∀ i, i ≤ k → (pipelineTrace env).count (stageAt i) = 1) ∧
    (∀ i, k < i → i < 6 → (pipelineTrace env).count (stageAt i) = 0) := by
  interval_cases k
  · -- k = 0
    have htr : pipelineTrace env = stageOrder.take 1 := by
      simp [pipelineTrace, runStages, stageOrder, stageAt] at hfail ⊢
      simp [hfail]
    refine ⟨htr, ?_, ?_, ?_⟩
    · simp [run_pipeline, runStages, stageOrder, stageAt] at hfail ⊢
      simp [hfail]
    · intro i hi
      interval_cases i
      rw [htr]; decide
    · intro i hi1 hi2
      rw [htr]
      interval_cases i <;> decide
  · -- k = 1
    have h0 := hbefore 0 (by norm_num)
    have htr : pipelineTrace env = stageOrder.take 2 := by
      simp [stageAt] at h0 hfail
      simp [pipelineTrace, runStages, stageOrder, h0, hfail]
    refine ⟨htr, ?_, ?_, ?_⟩
    · simp [stageAt] at h0 hfail
      simp [run_pipeline, runStages, stageOrder, h0, hfail]
    · intro i hi
      rw [htr]
      interval_cases i <;> decide
    · intro i hi1 hi2
      rw [htr]
      interval_cases i <;> decide
  · -- k = 2
    have h0 := hbefore 0 (by norm_num)
    have h1 := hbefore 1 (by norm_num)
    have htr : pipelineTrace env = stageOrder.take 3 := by
      simp [stageAt] at h0 h1 hfail
      simp [pipelineTrace, runStages, stageOrder, h0, h1, hfail]
    refine ⟨htr, ?_, ?_, ?_⟩
    · simp [stageAt] at h0 h1 hfail
      simp [run_pipeline, runStages, stageOrder, h0, h1, hfail]
    · intro i hi
      rw [htr]
      interval_cases i <;> decide
    · intro i hi1 hi2
      rw [htr]
      interval_cases i <;> decide
  · -- k = 3
    have h0 := hbefore 0 (by norm_num)
    have h1 := hbefore 1 (by norm_num)
    have h2 := hbefore 2 (by norm_num)
    have htr : pipelineTrace env = stageOrder.take 4 := by
      simp [stageAt] at h0 h1 h2 hfail
      simp [pipelineTrace, runStages, stageOrder, h0, h1, h2, hfail]
    refine ⟨htr, ?_, ?_, ?_⟩
    · simp [stageAt] at h0 h1 h2 hfail
      simp [run_pipeline, runStages, stageOrder, h0, h1, h2, hfail]
    · intro i hi
      rw [htr]
      interval_cases i <;> decide
    · intro i hi1 hi2
      rw [htr]
      interval_cases i <;> decide
  · -- k = 4
    have h0 := hbefore 0 (by norm_num)
    have h1 := hbefore 1 (by norm_num)
    have h2 := hbefore 2 (by norm_num)
    have h3 := hbefore 3 (by norm_num)
    have htr : pipelineTrace env = stageOrder.take 5 := by
      simp [stageAt] at h0 h1 h2 h3 hfail
      simp [pipelineTrace, runStages, stageOrder, h0, h1, h2, h3, hfail]
    refine ⟨htr, ?_, ?_, ?_⟩
    · simp [stageAt] at h0 h1 h2 h3 hfail
      simp [run_pipeline, runStages, stageOrder, h0, h1, h2, h3, hfail]
    · intro i hi
      rw [htr]
      interval_cases i <;> decide
    · intro i hi1 hi2
      rw [htr]
      interval_cases i <;> decide
  · -- k = 5
    have h0 := hbefore 0 (by norm_num)
    have h1 := hbefore 1 (by norm_num)
    have h2 := hbefore 2 (by norm_num)
    have h3 := hbefore 3 (by norm_num)
    have h4 := hbefore 4 (by norm_num)
    have htr : pipelineTrace env = stageOrder.take 6 := by
      simp [stageAt] at h0 h1 h2 h3 h4 hfail
      simp [pipelineTrace, runStages, stageOrder, h0, h1, h2, h3, h4, hfail]
    refine ⟨htr, ?_, ?_, ?_⟩
    · simp [stageAt] at h0 h1 h2 h3 h4 hfail
      simp [run_pipeline, runStages, stageOrder, h0, h1, h2, h3, h4, hfail]
    · intro i hi
      rw [htr]
      interval_cases i <;> decide
    · intro i hi1 hi2
      omega

/-- Environment whose third stage (sparse reconstruction) fails while the
fused output file already exists in the workspace. -/
def failAtSparse : Env :=
  { proc := fun s => if s = Stage.sparseReconstruction
      then { returncode := 1, stderr := "mapper failed" }
      else { returncode := 0, stderr := "" },
    fusedPlyExists := true }

/-- Witness for C2: with a mocked failure at stage index 2 and the fused
file pre-existing, exactly stages 0..2 run once each and the pipeline
reports failure. -/
theorem run_pipeline_first_failure_witness :
    pipelineTrace failAtSparse = stageOrder.take 3 ∧
    run_pipeline failAtSparse = false ∧
    (pipelineTrace failAtSparse).count (stageAt 4) = 0 := by
  have h := run_pipeline_first_failure failAtSparse 2 (by norm_num)
    (by intro i hi; interval_cases i <;> decide) (by decide)
  exact ⟨h.1, h.2.1, h.2.2.2 4 (by norm_num) (by norm_num)⟩

end Photogrammetry

namespace Capture

/-- `CameraCapture.__init__`: seconds slept before each stream reopen. -/
def retry_delay : Nat := 5

/-- `CameraCapture.__init__`: bound on consecutive failed reads. -/
def max_retries : Nat := 5

/-- Capture settings read from the `capture` section of the configuration,
with the source defaults (src/capture.py, `capture_frames_opencv`). -/
structure CaptureSettings where
  frame_interval : Nat := 5
  total_frames : Nat := 100
deriving DecidableEq, Repr

/-- Outcome of one `cap.read()` call: `ok` means `ret` was truthy. -/
inductive ReadResult
  | ok
  | fail
deriving DecidableEq, Repr

/-- One step of the stream environment: the read outcome, and — should the
code release and reopen the stream after this read fails — whether the
reopened handle reports `isOpened()`. -/
structure ReadStep where
  result : ReadResult
  reopenOk : Bool
deriving DecidableEq, Repr

/-- Observable actions of the OpenCV capture loop.  `frameSaved seq` is a
`cv2.imwrite` of `{camera_name}_img_{seq:06d}.jpg`; `reopened d` is the
release / `time.sleep(d)` / reopen sequence after a failed read; the two
`stopped` actions are the `break`s that end capture for this camera. -/
inductive Action
  | frameSaved (seq : Nat)
  | frameRead
  | reopened (delay : Nat)
  | stoppedMaxRetries
  | stoppedReopenFailed (delay : Nat)
deriving DecidableEq, Repr

/-- Loop counters of `capture_frames_opencv`. -/
structure CaptureState where
  frames_captured : Nat
  frame_count : Nat
  retry_count : Nat
deriving DecidableEq, Repr

/-- Result of processing one read inside the capture loop. -/
structure StepResult where
  state : CaptureState
  event : Action
  keepGoing : Bool
deriving DecidableEq, Repr

/-- One iteration body of the `while frames_captured < total_frames` loop
of `capture_frames_opencv`: on a failed read, increment `retry_count`,
`break` once it reaches `max_retries`, otherwise release and reopen the
stream after `retry_delay` seconds (breaking if the reopen fails); on a
successful read, reset `retry_count`, increment `frame_count`, and persist
the frame as sequence number `frames_captured` when `frame_count` is a
multiple of `frame_interval`. -/
def captureStep (cfg : CaptureSettings) (r : ReadStep) (st : CaptureState) : StepResult :=
  match r.result with
  | ReadResult.fail =>
    let rc := st.retry_count + 1
    if max_retries ≤ rc then
      { state := { st with retry_count := rc }, event := Action.stoppedMaxRetries,
        keepGoing := false }
    else if r.reopenOk then
      { state := { st with retry_count := rc }, event := Action.reopened retry_delay,
        keepGoing := true }
    else
      { state := { st with retry_count := rc },
        event := Action.stoppedReopenFailed retry_delay, keepGoing := false }
  | ReadResult.ok =>
    let fc := st.frame_count + 1
    if fc % cfg.frame_interval == 0 then
      { state := { frames_captured := st.frames_captured + 1, frame_count := fc,
                   retry_count := 0 },
        event := Action.frameSaved st.frames_captured, keepGoing := true }
    else
      { state := { st with frame_count := fc, retry_count := 0 },
        event := Action.frameRead, keepGoing := true }

/-- The capture loop, driven by the finite sequence of read outcomes the
stream delivers.  Returns the final counters and the trace of actions. -/
def captureLoop (cfg : CaptureSettings) :
    List ReadStep → CaptureState → CaptureState × List Action
  | [], st => (st, [])
  | r :: rest, st =>
    if st.frames_captured < cfg.total_frames then
      let x := captureStep cfg r st
      if x.keepGoing then
        let y := captureLoop cfg rest x.state
        (y.1, x.event :: y.2)
      else (x.state, [x.event])
    else (st, [])

/-- Inputs of one `capture_frames_opencv` call: the resolved RTSP URI (the
empty string models a falsy URI), whether the initial
`cv2.VideoCapture(...).isOpened()` succeeds, and the stream's read
outcomes. -/
structure OpencvRun where
  rtsp_uri : String
  openOk : Bool
  reads : List ReadStep
deriving DecidableEq, Repr

/-- What one `capture_frames_opencv` call produced: its boolean return
value, the number of frames persisted, and the trace of loop actions. -/
structure OpencvResult where
  success : Bool
  persisted : Nat
  events : List Action
deriving DecidableEq, Repr

/-- `CameraCapture.capture_frames_opencv`: reject an empty URI or a stream
that fails to open (no frames persisted), otherwise run the capture loop
and report success exactly when `frames_captured > 0`. -/
def capture_frames_opencv (cfg : CaptureSettings) (run : OpencvRun) : OpencvResult :=
  if run.rtsp_uri = "" then { success := false, persisted := 0, events := [] }
  else if run.openOk = false then { success := false, persisted := 0, events := [] }
  else
    let out := captureLoop cfg run.reads { frames_captured := 0, frame_count := 0, retry_count := 0 }
    { success := decide (0 < out.1.frames_captured), persisted := out.1.frames_captured,
      events := out.2 }

/-- Outcome of the external `ffmpeg` process spawned by
`capture_frames_ffmpeg`: its exit code, and how many frame files the
external process persisted on its own. -/
structure FfmpegRun where
  returncode : Int
  framesWritten : Nat
deriving DecidableEq, Repr

/-- `CameraCapture.capture_frames_ffmpeg`: reject an empty URI, then
report success exactly when the ffmpeg process exits 0 — the persisted
frame count is never consulted. -/
def capture_frames_ffmpeg (rtsp_uri : String) (run : FfmpegRun) : Bool :=
  if rtsp_uri = "" then false else run.returncode == 0

/-- Per-camera environment for `capture_all_cameras`: the camera's name,
the URI `get_rtsp_uri` resolved (empty when resolution failed), and the
inputs each capture strategy would see. -/
structure CameraRun where
  name : String
  rtsp_uri : String
  openOk : Bool
  reads : List ReadStep
  ffmpeg : FfmpegRun
deriving DecidableEq, Repr

/-- How `capture_all_cameras` disposed of one camera. -/
inductive CamOutcome
  | skipped
  | opencvSuccess
  | ffmpegSuccess
  | bothFailed
deriving DecidableEq, Repr

/-- The per-camera body of `capture_all_cameras`: skip a camera with no
RTSP URI, try OpenCV capture first, fall back to ffmpeg on failure. -/
def processCamera (cfg : CaptureSettings) (c : CameraRun) : CamOutcome :=
  if c.rtsp_uri = "" then CamOutcome.skipped
  else if (capture_frames_opencv cfg
      { rtsp_uri := c.rtsp_uri, openOk := c.openOk, reads := c.reads }).success then
    CamOutcome.opencvSuccess
  else if capture_frames_ffmpeg c.rtsp_uri c.ffmpeg then CamOutcome.ffmpegSuccess
  else CamOutcome.bothFailed

/-- `CameraCapture.capture_all_cameras`: process every configured camera
in order; no per-camera outcome aborts the loop. -/
def capture_all_cameras (cfg : CaptureSettings) : List CameraRun → List CamOutcome
  | [] => []
  | c :: rest => processCamera cfg c :: capture_all_cameras cfg rest

/-- The sequence numbers embedded in the filenames the loop persisted, in
the order they were written. -/
def savedSeqs (evs : List Action) : List Nat :=
  evs.filterMap fun e =>
    match e with
    | Action.frameSaved n => some n
    | _ => none

/-- Events that abort capture for the camera. -/
def abortsCapture : Action → Bool
  | Action.stoppedMaxRetries => true
  | Action.stoppedReopenFailed _ => true
  | _ => false

/-- The back-off delay an action carries, when it carries one. -/
def actionDelay : Action → Option Nat
  | Action.reopened d => some d
  | Action.stoppedReopenFailed d => some d
  | _ => none

/-- Every maximal run of consecutive failed reads stays strictly below the
retry budget `m`, starting from `c` consecutive failures already seen. -/
def consecFailuresBelow (m : Nat) : Nat → List ReadStep → Bool
  | _, [] => true
  | c, r :: rest =>
    match r.result with
    | ReadResult.fail => decide (c + 1 < m) && consecFailuresBelow m (c + 1) rest
    | ReadResult.ok => consecFailuresBelow m 0 rest

lemma captureStep_frames (cfg : CaptureSettings) (r : ReadStep) (st : CaptureState) :
    (captureStep cfg r st).state.frames_captured = st.frames_captured ∨
    (captureStep cfg r st).state.frames_captured = st.frames_captured + 1 := by
  cases hr : r.result <;> simp only [captureStep, hr]
  · by_cases h : (st.frame_count + 1) % cfg.frame_interval == 0 <;> simp [h]
  · by_cases h1 : max_retries ≤ st.retry_count + 1 <;> by_cases h2 : r.reopenOk = true <;>
      simp [h1, h2]

lemma captureLoop_frames_le (cfg : CaptureSettings) :
    ∀ (reads : List ReadStep) (st : CaptureState),
      st.frames_captured ≤ cfg.total_frames →
      (captureLoop cfg reads st).1.frames_captured ≤ cfg.total_frames := by
  intro reads
  induction reads with
  | nil => intro st h; simpa [captureLoop] using h
  | cons r rest ih =>
    intro st h
    by_cases hlt : st.frames_captured < cfg.total_frames
    · simp only [captureLoop, hlt, if_true]
      have hf := captureStep_frames cfg r st
      by_cases hk : (captureStep cfg r st).keepGoing = true
      · rw [if_pos hk]
        exact ih _ (by rcases hf with he | he <;> omega)
      · rw [if_neg hk]
        simp only []
        rcases hf with he | he <;> omega
    · simp only [captureLoop, hlt, if_false]
      exact h

lemma savedSeqs_captureLoop (cfg : CaptureSettings) :
    ∀ (reads : List ReadStep) (st : CaptureState),
      (captureLoop cfg reads st).1.frames_captured =
        st.frames_captured + (savedSeqs (captureLoop cfg reads st).2).length ∧
      savedSeqs (captureLoop cfg reads st).2 =
        List.range' st.frames_captured (savedSeqs (captureLoop cfg reads st).2).length := by
  intro reads
  induction reads with
  | nil => intro st; simp [captureLoop, savedSeqs]
  | cons r rest ih =>
    intro st
    by_cases hlt : st.frames_captured < cfg.total_frames
    · simp only [captureLoop, hlt, if_true]
      cases hr : r.result with
      | ok =>
        by_cases hsave : (st.frame_count + 1) % cfg.frame_interval == 0
        · have hstep : captureStep cfg r st =
              { state := { frames_captured := st.frames_captured + 1,
                           frame_count := st.frame_count + 1, retry_count := 0 },
                event := Action.frameSaved st.frames_captured, keepGoing := true } := by
            simp [captureStep, hr, hsave]
          rw [hstep]
          simp only [if_true]
          have h2 := ih { frames_captured := st.frames_captured + 1,
                          frame_count := st.frame_count + 1, retry_count := 0 }
          simp only [savedSeqs, List.filterMap_cons] at h2 ⊢
          constructor
          · simp only [List.length_cons]
            omega
          · simp only [List.length_cons, List.range'_succ]
            rw [← h2.2]
        · have hstep : captureStep cfg r st =
              { state := { st with frame_count := st.frame_count + 1, retry_count := 0 },
                event := Action.frameRead, keepGoing := true } := by
            simp [captureStep, hr, hsave]
          rw [hstep]
          simp only [if_true]
          have h2 := ih { st with frame_count := st.frame_count + 1, retry_count := 0 }
          simp only [savedSeqs, List.filterMap_cons] at h2 ⊢
          exact h2
      | fail =>
        by_cases hmax : max_retries ≤ st.retry_count + 1
        · have hstep : captureStep cfg r st =
              { state := { st with retry_count := st.retry_count + 1 },
                event := Action.stoppedMaxRetries, keepGoing := false } := by
            simp [captureStep, hr, hmax]
          rw [hstep]
          simp [savedSeqs]
        · by_cases hre : r.reopenOk
          · have hstep : captureStep cfg r st =
                { state := { st with retry_count := st.retry_count + 1 },
                  event := Action.reopened retry_delay, keepGoing := true } := by
              simp [captureStep, hr, hmax, hre]
            rw [hstep]
            simp only [if_true]
            have h2 := ih { st with retry_count := st.retry_count + 1 }
            simp only [savedSeqs, List.filterMap_cons] at h2 ⊢
            exact h2
          · have hstep : captureStep cfg r st =
                { state := { st with retry_count := st.retry_count + 1 },
                  event := Action.stoppedReopenFailed retry_delay, keepGoing := false } := by
              simp [captureStep, hr, hmax, hre]
            rw [hstep]
            simp [savedSeqs]
    · simp only [captureLoop, hlt, if_false]
      simp [savedSeqs]

lemma captureLoop_frames_mono (cfg : CaptureSettings) (reads : List ReadStep)
    (st : CaptureState) :
    st.frames_captured ≤ (captureLoop cfg reads st).1.frames_captured := by
  have h := (savedSeqs_captureLoop cfg reads st).1
  omega

lemma mod_succ_of_add_lt (f N : Nat) (h : f % N + 1 < N) : (f + 1) % N = f % N + 1 := by
  have h2 : (1 : Nat) % N = 1 := Nat.mod_eq_of_lt (by omega)
  calc (f + 1) % N = (f % N + 1 % N) % N := by rw [Nat.add_mod]
    _ = (f % N + 1) % N := by rw [h2]
    _ = f % N + 1 := Nat.mod_eq_of_lt h

lemma mod_succ_eq_zero (f N : Nat) (h0 : 0 < N) (h : f % N + 1 = N) : (f + 1) % N = 0 := by
  rcases Nat.lt_or_ge 1 N with hN | hN
  · have h2 : (1 : Nat) % N = 1 := Nat.mod_eq_of_lt hN
    rw [Nat.add_mod, h2, h, Nat.mod_self]
  · have hN1 : N = 1 := by omega
    subst hN1
    simp [Nat.mod_one]

/-- A block of `j` straight successful reads, where `j` reads remain until
`frame_count` reaches the next multiple of `frame_interval`, advances the
loop to one more persisted frame. -/
lemma captureLoop_ok_block (cfg : CaptureSettings) (hN : 0 < cfg.frame_interval) :
    ∀ (j f fc rc : Nat) (rest : List ReadStep),
      f % cfg.frame_interval + j = cfg.frame_interval →
      fc < cfg.total_frames →
      (captureLoop cfg
          (List.replicate j { result := ReadResult.ok, reopenOk := true } ++ rest)
          { frames_captured := fc, frame_count := f, retry_count := rc }).1 =
      (captureLoop cfg rest
          { frames_captured := fc + 1, frame_count := f + j, retry_count := 0 }).1 := by
  intro j
  induction j with
  | zero =>
    intro f fc rc rest hmod hfc
    have := Nat.mod_lt f hN
    omega
  | succ j ih =>
    intro f fc rc rest hmod hfc
    rcases Nat.eq_zero_or_pos j with hj | hj
    · subst hj
      have hm : (f + 1) % cfg.frame_interval = 0 :=
        mod_succ_eq_zero f cfg.frame_interval hN (by omega)
      have hstep : captureStep cfg { result := ReadResult.ok, reopenOk := true }
          { frames_captured := fc, frame_count := f, retry_count := rc } =
          { state := { frames_captured := fc + 1, frame_count := f + 1, retry_count := 0 },
            event := Action.frameSaved fc, keepGoing := true } := by
        simp [captureStep, hm]
      simp only [List.replicate_succ, List.replicate, List.cons_append, List.nil_append,
        captureLoop, hfc, if_true, hstep]
      simp
    · have hlt2 : f % cfg.frame_interval + 1 < cfg.frame_interval := by omega
      have hm : (f + 1) % cfg.frame_interval = f % cfg.frame_interval + 1 :=
        mod_succ_of_add_lt f cfg.frame_interval hlt2
      have hstep : captureStep cfg { result := ReadResult.ok, reopenOk := true }
          { frames_captured := fc, frame_count := f, retry_count := rc } =
          { state := { frames_captured := fc, frame_count := f + 1, retry_count := 0 },
            event := Action.frameRead, keepGoing := true } := by
        simp only [captureStep]
        rw [hm]
        simp
      simp only [List.replicate_succ, List.cons_append, captureLoop, hfc, if_true, hstep]
      have hrec := ih (f + 1) fc 0 rest (by omega) hfc
      rw [show f + (j + 1) = f + 1 + j from by omega, ← hrec]
      rfl

/-- `k` blocks of `frame_interval` straight successful reads persist
exactly `k` frames, provided the configured total is not yet reached. -/
lemma captureLoop_replicate_ok (cfg : CaptureSettings) (hN : 0 < cfg.frame_interval) :
    ∀ (k fc f rc : Nat), f % cfg.frame_interval = 0 → fc + k ≤ cfg.total_frames →
      (captureLoop cfg
          (List.replicate (k * cfg.frame_interval)
            { result := ReadResult.ok, reopenOk := true })
          { frames_captured := fc, frame_count := f, retry_count := rc }).1.frames_captured =
        fc + k := by
  intro k
  induction k with
  | zero =>
    intro fc f rc _ _
    simp [captureLoop]
  | succ k ih =>
    intro fc f rc hmod hle
    rw [show (k + 1) * cfg.frame_interval =
          cfg.frame_interval + k * cfg.frame_interval from by
        rw [Nat.succ_mul, Nat.add_comm]]
    rw [List.replicate_add]
    rw [captureLoop_ok_block cfg hN cfg.frame_interval f fc rc _ (by omega) (by omega)]
    have hmod2 : (f + cfg.frame_interval) % cfg.frame_interval = 0 := by
      rw [Nat.add_mod_right]
      exact hmod
    rw [ih (fc + 1) (f + cfg.frame_interval) 0 hmod2 (by omega)]
    omega

lemma captureLoop_retry_le (cfg : CaptureSettings) :
    ∀ (reads : List ReadStep) (st : CaptureState),
      st.retry_count < max_retries →
      (captureLoop cfg reads st).1.retry_count ≤ max_retries := by
  intro reads
  induction reads with
  | nil => intro st h; simp only [captureLoop]; omega
  | cons r rest ih =>
    intro st h
    by_cases hlt : st.frames_captured < cfg.total_frames
    · simp only [captureLoop, hlt, if_true]
      cases hr : r.result with
      | ok =>
        by_cases hsave : (st.frame_count + 1) % cfg.frame_interval == 0
        · have hstep : captureStep cfg r st =
              { state := { frames_captured := st.frames_captured + 1,
                           frame_count := st.frame_count + 1, retry_count := 0 },
                event := Action.frameSaved st.frames_captured, keepGoing := true } := by
            simp [captureStep, hr, hsave]
          rw [hstep]
          exact ih _ (by simp [max_retries])
        · have hstep : captureStep cfg r st =
              { state := { st with frame_count := st.frame_count + 1, retry_count := 0 },
                event := Action.frameRead, keepGoing := true } := by
            simp [captureStep, hr, hsave]
          rw [hstep]
          exact ih _ (by simp [max_retries])
      | fail =>
        by_cases hmax : max_retries ≤ st.retry_count + 1
        · have hstep : captureStep cfg r st =
              { state := { st with retry_count := st.retry_count + 1 },
                event := Action.stoppedMaxRetries, keepGoing := false } := by
            simp [captureStep, hr, hmax]
          rw [hstep]
          simp only [Bool.false_eq_true, if_false]
          omega
        · by_cases hre : r.reopenOk = true
          · have hstep : captureStep cfg r st =
                { state := { st with retry_count := st.retry_count + 1 },
                  event := Action.reopened retry_delay, keepGoing := true } := by
              simp [captureStep, hr, hmax, hre]
            rw [hstep]
            exact ih _ (by simp only []; omega)
          · have hstep : captureStep cfg r st =
                { state := { st with retry_count := st.retry_count + 1 },
                  event := Action.stoppedReopenFailed retry_delay, keepGoing := false } := by
              simp [captureStep, hr, hmax, hre]
            rw [hstep]
            simp only [Bool.false_eq_true, if_false]
            omega
    · simp only [captureLoop, hlt, if_false]
      omega

lemma captureLoop_delay_fixed (cfg : CaptureSettings) :
    ∀ (reads : List ReadStep) (st : CaptureState) (e : Action),
      e ∈ (captureLoop cfg reads st).2 →
      actionDelay e = none ∨ actionDelay e = some retry_delay := by
  intro reads
  induction reads with
  | nil => intro st e he; simp [captureLoop] at he
  | cons r rest ih =>
    intro st e he
    by_cases hlt : st.frames_captured < cfg.total_frames
    · simp only [captureLoop, hlt, if_true] at he
      by_cases hk : (captureStep cfg r st).keepGoing = true
      · rw [if_pos hk] at he
        simp only [List.mem_cons] at he
        rcases he with he | he
        · subst he
          cases hr : r.result with
          | ok =>
            by_cases hsave : (st.frame_count + 1) % cfg.frame_interval == 0 <;>
              simp [captureStep, hr, hsave, actionDelay]
          | fail =>
            by_cases hmax : max_retries ≤ st.retry_count + 1 <;>
              by_cases hre : r.reopenOk = true <;>
              simp [captureStep, hr, hmax, hre, actionDelay]
        · exact ih _ e he
      · rw [if_neg hk] at he
        simp only [List.mem_singleton] at he
        subst he
        cases hr : r.result with
        | ok =>
          by_cases hsave : (st.frame_count + 1) % cfg.frame_interval == 0 <;>
            simp [captureStep, hr, hsave, actionDelay]
        | fail =>
          by_cases hmax : max_retries ≤ st.retry_count + 1 <;>
            by_cases hre : r.reopenOk = true <;>
            simp [captureStep, hr, hmax, hre, actionDelay]
    · simp [captureLoop, hlt] at he

lemma captureLoop_no_abort (cfg : CaptureSettings) :
    ∀ (reads : List ReadStep) (st : CaptureState),
      consecFailuresBelow max_retries st.retry_count reads = true →
      (∀ r ∈ reads, r.reopenOk = true) →
      ∀ e ∈ (captureLoop cfg reads st).2, abortsCapture e = false := by
  intro reads
  induction reads with
  | nil => intro st _ _ e he; simp [captureLoop] at he
  | cons r rest ih =>
    intro st hc hre e he
    have hreTail : ∀ x ∈ rest, x.reopenOk = true := fun x hx => hre x (List.mem_cons_of_mem r hx)
    by_cases hlt : st.frames_captured < cfg.total_frames
    · simp only [captureLoop, hlt, if_true] at he
      cases hr : r.result with
      | ok =>
        have hcTail : consecFailuresBelow max_retries 0 rest = true := by
          simpa [consecFailuresBelow, hr] using hc
        by_cases hsave : (st.frame_count + 1) % cfg.frame_interval == 0
        · have hstep : captureStep cfg r st =
              { state := { frames_captured := st.frames_captured + 1,
                           frame_count := st.frame_count + 1, retry_count := 0 },
                event := Action.frameSaved st.frames_captured, keepGoing := true } := by
            simp [captureStep, hr, hsave]
          rw [hstep] at he
          simp only [if_true, List.mem_cons] at he
          rcases he with he | he
          · subst he; rfl
          · exact ih _ hcTail hreTail e he
        · have hstep : captureStep cfg r st =
              { state := { st with frame_count := st.frame_count + 1, retry_count := 0 },
                event := Action.frameRead, keepGoing := true } := by
            simp [captureStep, hr, hsave]
          rw [hstep] at he
          simp only [if_true, List.mem_cons] at he
          rcases he with he | he
          · subst he; rfl
          · exact ih _ hcTail hreTail e he
      | fail =>
        have hc2 : st.retry_count + 1 < max_retries ∧
            consecFailuresBelow max_retries (st.retry_count + 1) rest = true := by
          have := hc
          simp [consecFailuresBelow, hr] at this
          exact this
        have hmax : ¬ max_retries ≤ st.retry_count + 1 := by omega
        have hre1 : r.reopenOk = true := hre r (List.mem_cons_self r rest)
        have hstep : captureStep cfg r st =
            { state := { st with retry_count := st.retry_count + 1 },
              event := Action.reopened retry_delay, keepGoing := true } := by
          simp [captureStep, hr, hmax, hre1]
        rw [hstep] at he
        simp only [if_true, List.mem_cons] at he
        rcases he with he | he
        · subst he; rfl
        · exact ih _ hc2.2 hreTail e he
    · simp [captureLoop, hlt] at he

lemma capture_all_cameras_eq_map (cfg : CaptureSettings) :
    ∀ cams : List CameraRun, capture_all_cameras cfg cams = cams.map (processCamera cfg) := by
  intro cams
  induction cams with
  | nil => rfl
  | cons c rest ih => simp [capture_all_cameras, ih]

/-- C5 counterexample input: an ffmpeg process that exits 0 without having
persisted a single frame. -/
def ffmpegZeroFrames : FfmpegRun := { returncode := 0, framesWritten := 0 }

/-- C5 counterexample: the ffmpeg fallback reports success for a run whose
persisted frame count is zero, so "success iff persisted frames > 0" fails
for the ffmpeg capture strategy. -/
theorem capture_success_criterion_cex :
    capture_frames_ffmpeg "rtsp://camera/stream" ffmpegZeroFrames = true ∧
    ffmpegZeroFrames.framesWritten = 0 := by
  constructor <;> rfl

/-- C5 (amended): the OpenCV strategy reports success exactly when it
persisted more than zero frames, while the ffmpeg fallback reports success
exactly when the URI is nonempty and the external process exits 0,
irrespective of how many frames were persisted. -/
theorem capture_success_criterion :
    (∀ (cfg : CaptureSettings) (run : OpencvRun),
        (capture_frames_opencv cfg run).success = true ↔
          0 < (capture_frames_opencv cfg run).persisted) ∧
    (∀ (uri : String) (run : FfmpegRun),
        capture_frames_ffmpeg uri run = true ↔ (uri ≠ "" ∧ run.returncode = 0)) := by
  constructor
  · intro cfg run
    unfold capture_frames_opencv
    by_cases h1 : run.rtsp_uri = ""
    · simp [h1]
    · by_cases h2 : run.openOk = false
      · simp [h1, h2]
      · simp [h1, h2]
  · intro uri run
    unfold capture_frames_ffmpeg
    by_cases h1 : uri = ""
    · simp [h1]
    · simp [h1]

/-- C6: the persisted frame count never exceeds the configured
`total_frames`, and a failure-free stream delivering `k × frame_interval`
successful reads yields exactly `k` persisted frames. -/
theorem capture_total_cap_and_interval :
    (∀ (cfg : CaptureSettings) (run : OpencvRun),
        (capture_frames_opencv cfg run).persisted ≤ cfg.total_frames) ∧
    (∀ (cfg : CaptureSettings) (run : OpencvRun) (k : Nat),
        0 < cfg.frame_interval → k ≤ cfg.total_frames →
        run.rtsp_uri ≠ "" → run.openOk = true →
        run.reads = List.replicate (k * cfg.frame_interval)
          { result := ReadResult.ok, reopenOk := true } →
        (capture_frames_opencv cfg run).persisted = k) := by
  constructor
  · intro cfg run
    unfold capture_frames_opencv
    by_cases h1 : run.rtsp_uri = ""
    · simp [h1]
    · by_cases h2 : run.openOk = false
      · simp [h1, h2]
      · simp only [h1, h2, if_false]
        exact captureLoop_frames_le cfg run.reads _ (Nat.zero_le _)
  · intro cfg run k hN hk h1 h2 hreads
    have h2f : ¬ run.openOk = false := by simp [h2]
    unfold capture_frames_opencv
    simp only [h1, h2f, if_false]
    rw [hreads]
    have := captureLoop_replicate_ok cfg hN k 0 0 0 (Nat.zero_mod _) (by omega)
    simpa using this

/-- Inputs for the C6 witness: interval 2, total 5, six straight
successful reads. -/
def cfgW : CaptureSettings := { frame_interval := 2, total_frames := 5 }

/-- Stream run for the C6 witness. -/
def runW : OpencvRun :=
  { rtsp_uri := "rtsp://camera/stream", openOk := true,
    reads := List.replicate 6 { result := ReadResult.ok, reopenOk := true } }

/-- Witness for C6: 3 × 2 successful reads at interval 2 persist exactly 3
frames, within the configured total of 5. -/
theorem capture_total_cap_and_interval_witness :
    (capture_frames_opencv cfgW runW).persisted = 3 ∧
    (capture_frames_opencv cfgW runW).persisted ≤ 5 := by
  refine ⟨capture_total_cap_and_interval.2 cfgW runW 3 (by decide) (by decide)
    (by decide) (by decide) (by decide), ?_⟩
  exact capture_total_cap_and_interval.1 cfgW runW

/-- C7: the back-off delay and retry bound are the fixed defaults 5 s and
5; every reopen action in any capture trace carries the fixed delay; a
failed read that exhausts the retry bound stops capture for that camera;
the retry counter stays within its bound; and the orchestrator processes
every configured camera regardless of individual outcomes. -/
theorem capture_retry_policy :
    (retry_delay = 5 ∧ max_retries = 5) ∧
    (∀ (cfg : CaptureSettings) (reads : List ReadStep) (st : CaptureState) (e : Action),
        e ∈ (captureLoop cfg reads st).2 →
        actionDelay e = none ∨ actionDelay e = some retry_delay) ∧
    (∀ (cfg : CaptureSettings) (r : ReadStep) (st : CaptureState),
        r.result = ReadResult.fail → max_retries ≤ st.retry_count + 1 →
        captureStep cfg r st =
          { state := { st with retry_count := st.retry_count + 1 },
            event := Action.stoppedMaxRetries, keepGoing := false }) ∧
    (∀ (cfg : CaptureSettings) (reads : List ReadStep) (st : CaptureState),
        st.retry_count < max_retries →
        (captureLoop cfg reads st).1.retry_count ≤ max_retries) ∧
    (∀ (cfg : CaptureSettings) (cams : List CameraRun),
        capture_all_cameras cfg cams = cams.map (processCamera cfg) ∧
        (capture_all_cameras cfg cams).length = cams.length) := by
  refine ⟨⟨rfl, rfl⟩, captureLoop_delay_fixed, ?_, captureLoop_retry_le, ?_⟩
  · intro cfg r st hr hmax
    simp [captureStep, hr, hmax]
  · intro cfg cams
    refine ⟨capture_all_cameras_eq_map cfg cams, ?_⟩
    rw [capture_all_cameras_eq_map cfg cams, List.length_map]

/-- Cameras for the C7 witness: one camera with no resolvable URI, one
whose stream fails every read. -/
def camsW : List CameraRun :=
  [{ name := "A", rtsp_uri := "", openOk := false, reads := [],
     ffmpeg := { returncode := 1, framesWritten := 0 } },
   { name := "B", rtsp_uri := "rtsp://b/stream", openOk := true,
     reads := List.replicate 7 { result := ReadResult.fail, reopenOk := true },
     ffmpeg := { returncode := 1, framesWritten := 0 } }]

/-- Witness for C7: a camera whose reads all fail keeps the retry counter
within the bound, and the orchestrator still processes both cameras. -/
theorem capture_retry_policy_witness :
    (captureLoop cfgW
        (List.replicate 7 { result := ReadResult.fail, reopenOk := true })
        { frames_captured := 0, frame_count := 0, retry_count := 0 }).1.retry_count ≤
      max_retries ∧
    (capture_all_cameras cfgW camsW).length = 2 := by
  constructor
  · exact capture_retry_policy.2.2.2.1 cfgW _ _ (by decide)
  · exact (capture_retry_policy.2.2.2.2 cfgW camsW).2

/-- C8: the sequence numbers embedded in the filenames persisted by an
OpenCV capture run are exactly `0, 1, ..., persisted - 1` in order: they
are contiguous from 0 and the largest plus one equals the persisted
count.  (The ffmpeg fallback delegates persistence and naming to the
external ffmpeg process, outside this repository's code.) -/
theorem capture_sequence_numbers (cfg : CaptureSettings) (run : OpencvRun) :
    savedSeqs (capture_frames_opencv cfg run).events =
      List.range (capture_frames_opencv cfg run).persisted := by
  unfold capture_frames_opencv
  by_cases h1 : run.rtsp_uri = ""
  · simp [h1, savedSeqs]
  · by_cases h2 : run.openOk = false
    · simp [h1, h2, savedSeqs]
    · rw [if_neg h1, if_neg h2]
      have h := savedSeqs_captureLoop cfg run.reads
        { frames_captured := 0, frame_count := 0, retry_count := 0 }
      show savedSeqs
          (captureLoop cfg run.reads
            { frames_captured := 0, frame_count := 0, retry_count := 0 }).2 =
        List.range
          (captureLoop cfg run.reads
            { frames_captured := 0, frame_count := 0, retry_count := 0 }).1.frames_captured
      rw [h.2, h.1]
      simp [List.range_eq_range']

/-- C10: a successful read resets the retry counter to zero (so the bound
of `max_retries` applies only to consecutive failures), and a capture
whose stream never delivers `max_retries` failures in a row — with
reopens succeeding — is never aborted by the retry logic. -/
theorem capture_retry_reset_consecutive :
    (∀ (cfg : CaptureSettings) (r : ReadStep) (st : CaptureState),
        r.result = ReadResult.ok →
        (captureStep cfg r st).state.retry_count = 0 ∧
        (captureStep cfg r st).keepGoing = true) ∧
    (∀ (cfg : CaptureSettings) (run : OpencvRun),
        consecFailuresBelow max_retries 0 run.reads = true →
        run.reads.all (fun r => r.reopenOk) = true →
        (capture_frames_opencv cfg run).events.all (fun e => !abortsCapture e) = true) := by
  constructor
  · intro cfg r st hr
    by_cases hsave : (st.frame_count + 1) % cfg.frame_interval == 0 <;>
      simp [captureStep, hr, hsave]
  · intro cfg run hc hre
    have hre2 : ∀ r ∈ run.reads, r.reopenOk = true := by
      intro r hr
      exact List.all_eq_true.mp hre r hr
    have key : ∀ e ∈ (capture_frames_opencv cfg run).events, abortsCapture e = false := by
      unfold capture_frames_opencv
      by_cases h1 : run.rtsp_uri = ""
      · simp [h1]
      · by_cases h2 : run.openOk = false
        · simp [h1, h2]
        · simp only [h1, h2, if_false]
          exact captureLoop_no_abort cfg run.reads _ hc hre2
    rw [List.all_eq_true]
    intro e he
    simp [key e he]

/-- Stream for the C10 witness: two bursts of four consecutive failures
separated and followed by successful reads. -/
def runW10 : OpencvRun :=
  { rtsp_uri := "rtsp://camera/stream", openOk := true,
    reads :=
      List.replicate 4 { result := ReadResult.fail, reopenOk := true } ++
      [{ result := ReadResult.ok, reopenOk := true }] ++
      List.replicate 4 { result := ReadResult.fail, reopenOk := true } ++
      [{ result := ReadResult.ok, reopenOk := true }] }

/-- Witness for C10: eight transient failures in two bursts of four never
abort the capture, because the counter resets on each successful read. -/
theorem capture_retry_reset_consecutive_witness :
    (capture_frames_opencv cfgW runW10).events.all (fun e => !abortsCapture e) = true :=
  capture_retry_reset_consecutive.2 cfgW runW10 (by decide) (by decide)

end Capture

namespace UsdBuilder

/-- Replace every occurrence of `pat` in a character list, moving past a
match the way Python's `str.replace` does; `fuel` bounds the recursion and
is instantiated with the list length. -/
def replaceAllChars (pat rep : List Char) : Nat → List Char → List Char
  | _, [] => []
  | 0, l => l
  | fuel + 1, c :: rest =>
    if !pat.isEmpty && pat.isPrefixOf (c :: rest) then
      rep ++ replaceAllChars pat rep fuel (List.drop pat.length (c :: rest))
    else c :: replaceAllChars pat rep fuel rest

/-- Python's `str.replace(pat, rep)` on strings, as used to rewrite image
paths relative to the image directory's parent. -/
def pyReplace (s pat rep : String) : String :=
  String.mk (replaceAllChars pat.data rep.data s.data.length s.data)

/-- The relative texture path written for each frame material:
`str(image_path).replace(str(Path(image_dir).parent) + "/", "./")`. -/
def rel_path (imageDirParent path : String) : String :=
  pyReplace path (imageDirParent ++ "/") "./"

/-- One discovered image file: its path and its modification time. -/
structure ImageFile where
  path : String
  mtime : Nat
deriving DecidableEq, Repr

/-- Environment of one `UsdSceneBuilder.build_scene` call: whether the pxr
(OpenUSD) import succeeded, the `*.jpg` files of the image directory (in
the order `sorted(glob)` enumerates them), the `**/*.jpg` files consulted
only when the direct listing is empty, the string form of the image
directory's parent, and the optional point-cloud path together with
whether it exists on disk. -/
structure BuildEnv where
  hasUsd : Bool
  images : List ImageFile
  subImages : List ImageFile
  imageDirParent : String
  point_cloud : Option String
  pointCloudExists : Bool
deriving DecidableEq, Repr

/-- The image files assembly works with: the direct directory listing,
falling back to the recursive listing when the direct one is empty. -/
def discovered (env : BuildEnv) : List ImageFile :=
  if env.images.isEmpty then env.subImages else env.images

/-- Python's `max(files, key=lambda p: p.stat().st_mtime)`: the first
file attaining the maximal modification time. -/
def maxByMtime : List ImageFile → Option ImageFile
  | [] => none
  | x :: rest => some (rest.foldl (fun best y => if y.mtime > best.mtime then y else best) x)

/-- `UsdSceneBuilder.find_latest_image`: newest discovered image, `none`
when no image is found at all. -/
def find_latest_image (env : BuildEnv) : Option ImageFile :=
  maxByMtime (discovered env)

/-- One `FrameMaterial_i` definition of the placeholder document, sampling
one image file as its texture. -/
structure FrameMaterial where
  index : Nat
  texture : String
deriving DecidableEq, Repr

/-- The scene document `build_scene` persists, reduced to the fields the
specification talks about: declared time range, the time-indexed
`material:binding.timeSamples` table, the per-frame material definitions,
the optional point-cloud reference, and the texture of the single static
material of the pxr planar fallback. -/
structure SceneDoc where
  startTimeCode : Nat
  endTimeCode : Nat
  timeCodesPerSecond : Nat
  materialBindings : List (Nat × String)
  materials : List FrameMaterial
  pointCloudRef : Option String
  planeTexture : Option String
deriving DecidableEq, Repr

/-- The `material:binding.timeSamples` entries of the placeholder
document: one entry per frame, keyed by the frame index. -/
def mkBindings (i : Nat) : List ImageFile → List (Nat × String)
  | [] => []
  | _ :: rest =>
    (i, "/World/Materials/FrameMaterial_" ++ toString i) :: mkBindings (i + 1) rest

/-- The `FrameMaterial_i` definitions of the placeholder document:
material `i` samples image `i` (path rewritten relative to the image
directory's parent) as its texture. -/
def mkMaterials (parent : String) (i : Nat) : List ImageFile → List FrameMaterial
  | [] => []
  | img :: rest =>
    { index := i, texture := rel_path parent img.path } :: mkMaterials parent (i + 1) rest

/-- The plain-text placeholder document written when pxr is unavailable:
time codes `0 .. N - 1` at 24 codes per second, one time-sampled material
binding and one frame material per image; the point cloud is mentioned
only in a comment, never referenced. -/
def placeholderDoc (env : BuildEnv) (files : List ImageFile) : SceneDoc :=
  { startTimeCode := 0
    endTimeCode := files.length - 1
    timeCodesPerSecond := 24
    materialBindings := mkBindings 0 files
    materials := mkMaterials env.imageDirParent 0 files
    pointCloudRef := none
    planeTexture := none }

/-- The document produced through the pxr API: `create_stage` declares
start and end time code 1 at 24 codes per second; a supplied point cloud
that exists on disk becomes a geometry reference, otherwise a plane with a
single material textured by the latest image is produced. -/
def pxrDoc (env : BuildEnv) (latest : ImageFile) : SceneDoc :=
  if env.point_cloud.isSome && env.pointCloudExists then
    { startTimeCode := 1, endTimeCode := 1, timeCodesPerSecond := 24,
      materialBindings := [], materials := [],
      pointCloudRef := env.point_cloud, planeTexture := none }
  else
    { startTimeCode := 1, endTimeCode := 1, timeCodesPerSecond := 24,
      materialBindings := [], materials := [],
      pointCloudRef := none, planeTexture := some latest.path }

/-- `UsdSceneBuilder.build_scene`: fail when no image is discovered;
without pxr write the placeholder document over all discovered images;
with pxr build a stage holding either the point-cloud reference (when the
supplied path exists) or the textured plane fallback. -/
def build_scene (env : BuildEnv) : Option SceneDoc :=
  match find_latest_image env with
  | none => none
  | some latest =>
    if env.hasUsd = false then
      if (discovered env).isEmpty then none
      else some (placeholderDoc env (discovered env))
    else some (pxrDoc env latest)

lemma maxByMtime_eq_none (l : List ImageFile) : maxByMtime l = none ↔ l = [] := by
  cases l <;> simp [maxByMtime]

lemma find_latest_image_isSome (env : BuildEnv) (hne : discovered env ≠ []) :
    (find_latest_image env).isSome = true := by
  unfold find_latest_image
  cases h : maxByMtime (discovered env)
  · exact absurd ((maxByMtime_eq_none _).mp h) hne
  · rfl

lemma build_scene_placeholder (env : BuildEnv) (hU : env.hasUsd = false)
    (hne : discovered env ≠ []) :
    build_scene env = some (placeholderDoc env (discovered env)) := by
  have hsome := find_latest_image_isSome env hne
  cases hl : find_latest_image env with
  | none => rw [hl] at hsome; simp at hsome
  | some latest =>
    unfold build_scene
    rw [hl, hU]
    have hemp : (discovered env).isEmpty = false := by
      cases h : discovered env
      · exact absurd h hne
      · rfl
    simp [hemp]

lemma build_scene_pxr (env : BuildEnv) (latest : ImageFile) (hU : env.hasUsd = true)
    (hl : find_latest_image env = some latest) :
    build_scene env = some (pxrDoc env latest) := by
  unfold build_scene
  rw [hl, hU]
  simp

lemma mkMaterials_length (parent : String) :
    ∀ (l : List ImageFile) (i : Nat), (mkMaterials parent i l).length = l.length := by
  intro l
  induction l with
  | nil => intro i; rfl
  | cons img rest ih => intro i; simp [mkMaterials, ih]

lemma mkMaterials_getElem (parent : String) :
    ∀ (l : List ImageFile) (i j : Nat),
      (mkMaterials parent i l)[j]? =
        (l[j]?).map fun img => { index := i + j, texture := rel_path parent img.path } := by
  intro l
  induction l with
  | nil => intro i j; simp [mkMaterials]
  | cons img rest ih =>
    intro i j
    cases j with
    | zero => simp [mkMaterials]
    | succ j =>
      simp only [mkMaterials, List.getElem?_cons_succ]
      rw [ih (i + 1) j]
      have : i + 1 + j = i + (j + 1) := by omega
      rw [this]

lemma mkBindings_keys :
    ∀ (l : List ImageFile) (i : Nat), (mkBindings i l).map Prod.fst = List.range' i l.length := by
  intro l
  induction l with
  | nil => intro i; rfl
  | cons img rest ih =>
    intro i
    simp only [mkBindings, List.map_cons, ih, List.length_cons]
    rfl

lemma mkBindings_length :
    ∀ (l : List ImageFile) (i : Nat), (mkBindings i l).length = l.length := by
  intro l i
  have h := congrArg List.length (mkBindings_keys l i)
  simpa using h

/-- C3 counterexample input: pxr available, two images discovered, a
point-cloud path supplied but missing on disk. -/
def c3Env : BuildEnv :=
  { hasUsd := true,
    images := [{ path := "images/cam_img_000000.jpg", mtime := 10 },
               { path := "images/cam_img_000001.jpg", mtime := 20 }],
    subImages := [], imageDirParent := ".",
    point_cloud := some "colmap_out/dense/fused.ply", pointCloudExists := false }

/-- C3 counterexample: with pxr available, N = 2 discovered images and a
missing point-cloud path, the fallback document contains zero per-frame
materials (a single static plane material instead of one material per
image), refuting "exactly N per-frame materials" for this run. -/
theorem usd_missing_point_cloud_cex :
    (build_scene c3Env).map (fun d => d.materials.length) = some 0 ∧
    (discovered c3Env).length = 2 ∧
    (build_scene c3Env).map (fun d => d.planeTexture) =
      some (some "images/cam_img_000001.jpg") := by
  refine ⟨rfl, rfl, rfl⟩

/-- C3 (amended): a supplied point-cloud path that is missing on disk
never makes assembly fail; when the scene library (pxr) is unavailable the
fallback document has exactly one per-frame material per discovered image,
material `i` sampling image `i` as its texture; when pxr is available the
fallback is a planar scene with a single material sampling the latest
image and no per-frame materials. -/
theorem usd_missing_point_cloud_fallback (env : BuildEnv)
    (hpc : env.pointCloudExists = false) (hne : discovered env ≠ []) :
    (build_scene env).isSome = true ∧
    (env.hasUsd = false →
      build_scene env = some (placeholderDoc env (discovered env)) ∧
      (placeholderDoc env (discovered env)).materials.length = (discovered env).length ∧
      (∀ (j : Nat) (img : ImageFile), (discovered env)[j]? = some img →
        (placeholderDoc env (discovered env)).materials[j]? =
          some { index := j, texture := rel_path env.imageDirParent img.path })) ∧
    (env.hasUsd = true → ∀ latest : ImageFile, find_latest_image env = some latest →
      build_scene env = some (pxrDoc env latest) ∧
      (pxrDoc env latest).materials = [] ∧
      (pxrDoc env latest).pointCloudRef = none ∧
      (pxrDoc env latest).planeTexture = some latest.path) := by
  refine ⟨?_, ?_, ?_⟩
  · cases hU : env.hasUsd
    · rw [build_scene_placeholder env hU hne]; rfl
    · have hsome := find_latest_image_isSome env hne
      cases hl : find_latest_image env with
      | none => rw [hl] at hsome; simp at hsome
      | some latest => rw [build_scene_pxr env latest hU hl]; rfl
  · intro hU
    refine ⟨build_scene_placeholder env hU hne, mkMaterials_length _ _ _, ?_⟩
    intro j img hj
    have h := mkMaterials_getElem env.imageDirParent (discovered env) 0 j
    rw [hj] at h
    simpa using h
  · intro hU latest hl
    refine ⟨build_scene_pxr env latest hU hl, ?_, ?_, ?_⟩
    all_goals
      simp [pxrDoc, hpc]

/-- C3 witness environment: pxr unavailable, two discovered images, a
missing point-cloud path. -/
def w3Env : BuildEnv :=
  { hasUsd := false,
    images := [{ path := "images/a.jpg", mtime := 1 }, { path := "images/b.jpg", mtime := 2 }],
    subImages := [], imageDirParent := ".",
    point_cloud := some "colmap_out/dense/fused.ply", pointCloudExists := false }

/-- Witness for C3 (amended): on two discovered images with a missing
point cloud and no pxr, assembly succeeds with exactly two per-frame
materials, the second sampling the second image. -/
theorem usd_missing_point_cloud_fallback_witness :
    (build_scene w3Env).isSome = true ∧
    (placeholderDoc w3Env (discovered w3Env)).materials.length = 2 ∧
    (placeholderDoc w3Env (discovered w3Env)).materials[1]? =
      some { index := 1, texture := rel_path w3Env.imageDirParent "images/b.jpg" } := by
  have h := usd_missing_point_cloud_fallback w3Env rfl (by decide)
  refine ⟨h.1, ?_, ?_⟩
  · rw [(h.2.1 rfl).2.1]
    rfl
  · exact (h.2.1 rfl).2.2 1 { path := "images/b.jpg", mtime := 2 } rfl

/-- C4 counterexample input: pxr available, five images discovered, no
point cloud. -/
def c4Env : BuildEnv :=
  { hasUsd := true,
    images := [{ path := "images/f0.jpg", mtime := 0 }, { path := "images/f1.jpg", mtime := 1 },
               { path := "images/f2.jpg", mtime := 2 }, { path := "images/f3.jpg", mtime := 3 },
               { path := "images/f4.jpg", mtime := 4 }],
    subImages := [], imageDirParent := ".",
    point_cloud := none, pointCloudExists := false }

/-- C4 counterexample: with pxr available, an assembly run over five
discovered images and no point cloud declares end time code 1 (from
`create_stage`) and an empty time-indexed material table — not end time
code 4 with five entries. -/
theorem usd_five_frames_timecode_cex :
    (build_scene c4Env).map (fun d => (d.endTimeCode, d.materialBindings.length)) =
      some (1, 0) ∧
    (discovered c4Env).length = 5 := by
  refine ⟨rfl, rfl⟩

/-- C4 (amended): over exactly five discovered images and no point cloud,
the plain-text placeholder branch (pxr unavailable) declares end time code
4 and a material table with exactly five entries keyed 0..4, while the pxr
branch declares start and end time code 1 with no time-indexed material
table. -/
theorem usd_five_frames_timecode :
    (∀ env : BuildEnv, env.hasUsd = false → env.point_cloud = none →
      (discovered env).length = 5 →
      build_scene env = some (placeholderDoc env (discovered env)) ∧
      (placeholderDoc env (discovered env)).endTimeCode = 4 ∧
      (placeholderDoc env (discovered env)).materialBindings.length = 5 ∧
      (placeholderDoc env (discovered env)).materialBindings.map Prod.fst =
        [0, 1, 2, 3, 4]) ∧
    (∀ (env : BuildEnv) (latest : ImageFile), env.hasUsd = true →
      env.point_cloud = none → find_latest_image env = some latest →
      build_scene env = some (pxrDoc env latest) ∧
      (pxrDoc env latest).startTimeCode = 1 ∧
      (pxrDoc env latest).endTimeCode = 1 ∧
      (pxrDoc env latest).materialBindings = []) := by
  constructor
  · intro env hU hpc hlen
    have hne : discovered env ≠ [] := by
      intro h
      rw [h] at hlen
      simp at hlen
    refine ⟨build_scene_placeholder env hU hne, ?_, ?_, ?_⟩
    · simp [placeholderDoc, hlen]
    · simp [placeholderDoc, mkBindings_length, hlen]
    · show (mkBindings 0 (discovered env)).map Prod.fst = [0, 1, 2, 3, 4]
      rw [mkBindings_keys, hlen]
      rfl
  · intro env latest hU hpc hl
    refine ⟨build_scene_pxr env latest hU hl, ?_, ?_, ?_⟩
    all_goals
      simp [pxrDoc, hpc]

/-- C4 witness environment: pxr unavailable, five images, no point
cloud. -/
def w4Env : BuildEnv :=
  { hasUsd := false,
    images := [{ path := "images/f0.jpg", mtime := 0 }, { path := "images/f1.jpg", mtime := 1 },
               { path := "images/f2.jpg", mtime := 2 }, { path := "images/f3.jpg", mtime := 3 },
               { path := "images/f4.jpg", mtime := 4 }],
    subImages := [], imageDirParent := ".",
    point_cloud := none, pointCloudExists := false }

/-- Witness for C4 (amended): five dummy images and no point cloud yield,
in the placeholder branch, end time code 4 and a five-entry material table
keyed 0..4. -/
theorem usd_five_frames_timecode_witness :
    (placeholderDoc w4Env (discovered w4Env)).endTimeCode = 4 ∧
    (placeholderDoc w4Env (discovered w4Env)).materialBindings.map Prod.fst =
      [0, 1, 2, 3, 4] := by
  have h := usd_five_frames_timecode.1 w4Env rfl rfl (by decide)
  exact ⟨h.2.1, h.2.2.2⟩

end UsdBuilder

namespace Capture

/-- Truncating the stream of reads — an interrupt arriving mid-capture —
never yields more persisted frames than the full run. -/
lemma captureLoop_take_le (cfg : CaptureSettings) :
    ∀ (reads : List ReadStep) (n : Nat) (st : CaptureState),
      (captureLoop cfg (reads.take n) st).1.frames_captured ≤
        (captureLoop cfg reads st).1.frames_captured := by
  intro reads
  induction reads with
  | nil => intro n st; simp [captureLoop]
  | cons r rest ih =>
    intro n st
    cases n with
    | zero =>
      simp only [List.take_zero, captureLoop]
      exact captureLoop_frames_mono cfg (r :: rest) st
    | succ n =>
      simp only [List.take_succ_cons]
      by_cases hlt : st.frames_captured < cfg.total_frames
      · simp only [captureLoop, hlt, if_true]
        by_cases hk : (captureStep cfg r st).keepGoing = true
        · rw [if_pos hk, if_pos hk]
          exact ih n (captureStep cfg r st).state
        · rw [if_neg hk, if_neg hk]
      · simp only [captureLoop, hlt, if_false]
        omega

end Capture

namespace MainCli

/-- The command-line flags of src/main.py that matter for the exit code. -/
structure Args where
  no_capture : Bool
  no_photogrammetry : Bool
  no_usd : Bool
deriving DecidableEq, Repr

/-- Environment of one `main` invocation: whether a `KeyboardInterrupt` or
another exception propagates to `main`'s handlers, and the results of the
photogrammetry and USD phases were they to run. -/
structure RunEnv where
  interrupted : Bool
  unhandled : Bool
  colmapSuccess : Bool
  usdSuccess : Bool
deriving DecidableEq, Repr

/-- src/main.py `main` (whose value `sys.exit` turns into the process exit
code): 1 when a `KeyboardInterrupt` or any other exception reaches the
handlers, 1 when a non-skipped photogrammetry or USD phase fails, 0
otherwise. -/
def mainExit (args : Args) (env : RunEnv) : Nat :=
  if env.interrupted then 1
  else if env.unhandled then 1
  else if !args.no_photogrammetry && !env.colmapSuccess then 1
  else if !args.no_usd && !env.usdSuccess then 1
  else 0

/-- Default flags: run all three phases. -/
def defaultArgs : Args := { no_capture := false, no_photogrammetry := false, no_usd := false }

/-- A run cancelled by the operator. -/
def interruptedEnv : RunEnv :=
  { interrupted := true, unhandled := false, colmapSuccess := true, usdSuccess := true }

/-- A run whose photogrammetry phase fails. -/
def fatalEnv : RunEnv :=
  { interrupted := false, unhandled := false, colmapSuccess := false, usdSuccess := true }

/-- C9 counterexample: on an operator interrupt the process returns 1 —
the very same code a fatal phase failure returns — so the interrupt exit
code is not distinct from the fatal-failure code. -/
theorem main_interrupt_code_cex :
    mainExit defaultArgs interruptedEnv = 1 ∧
    mainExit defaultArgs fatalEnv = 1 ∧
    mainExit defaultArgs interruptedEnv = mainExit defaultArgs fatalEnv := by
  refine ⟨rfl, rfl, rfl⟩

/-- C9 (amended): the process exits 0 exactly on full success of the
requested phases, every failure exit — fatal phase failure, unhandled
error, or operator interrupt — uses the single non-success code 1 (the
interrupt code is not distinct), and an interrupt truncating the capture
stream leaves exactly the frames persisted so far on disk, contiguously
numbered from 0 and never exceeding what the full run would persist. -/
theorem main_exit_codes :
    (∀ (args : Args) (env : RunEnv),
        mainExit args env = 0 ↔
          (env.interrupted = false ∧ env.unhandled = false ∧
           (args.no_photogrammetry = true ∨ env.colmapSuccess = true) ∧
           (args.no_usd = true ∨ env.usdSuccess = true))) ∧
    (∀ (args : Args) (env : RunEnv), mainExit args env ≠ 0 → mainExit args env = 1) ∧
    (∀ (args : Args) (env : RunEnv), env.interrupted = true → mainExit args env = 1) ∧
    (∀ (cfg : Capture.CaptureSettings) (reads : List Capture.ReadStep) (n : Nat),
        Capture.savedSeqs
            (Capture.captureLoop cfg (reads.take n)
              { frames_captured := 0, frame_count := 0, retry_count := 0 }).2 =
          List.range
            (Capture.captureLoop cfg (reads.take n)
              { frames_captured := 0, frame_count := 0, retry_count := 0 }).1.frames_captured ∧
        (Capture.captureLoop cfg (reads.take n)
            { frames_captured := 0, frame_count := 0, retry_count := 0 }).1.frames_captured ≤
          (Capture.captureLoop cfg reads
            { frames_captured := 0, frame_count := 0, retry_count := 0 }).1.frames_captured) := by
  refine ⟨?_, ?_, ?_, ?_⟩
  · intro args env
    rcases args with ⟨nc, np, nu⟩
    rcases env with ⟨i, u, c, us⟩
    cases i <;> cases u <;> cases np <;> cases c <;> cases nu <;> cases us <;>
      simp [mainExit]
  · intro args env
    rcases args with ⟨nc, np, nu⟩
    rcases env with ⟨i, u, c, us⟩
    cases i <;> cases u <;> cases np <;> cases c <;> cases nu <;> cases us <;>
      simp [mainExit]
  · intro args env hi
    rcases env with ⟨i, u, c, us⟩
    cases i
    · simp at hi
    · rfl
  · intro cfg reads n
    constructor
    · have h := Capture.savedSeqs_captureLoop cfg (reads.take n)
        { frames_captured := 0, frame_count := 0, retry_count := 0 }
      rw [h.2, h.1]
      simp [List.range_eq_range']
    · exact Capture.captureLoop_take_le cfg reads n _

/-- Witness for C9 (amended): a concrete interrupted run exits with code
1, and interrupting the C6 witness stream after four reads persists 2 of
its eventual 3 frames, numbered 0 and 1. -/
theorem main_exit_codes_witness :
    mainExit defaultArgs interruptedEnv = 1 ∧
    Capture.savedSeqs
        (Capture.captureLoop Capture.cfgW (Capture.runW.reads.take 4)
          { frames_captured := 0, frame_count := 0, retry_count := 0 }).2 =
      List.range
        (Capture.captureLoop Capture.cfgW (Capture.runW.reads.take 4)
          { frames_captured := 0, frame_count := 0, retry_count := 0 }).1.frames_captured ∧
    (Capture.captureLoop Capture.cfgW (Capture.runW.reads.take 4)
        { frames_captured := 0, frame_count := 0, retry_count := 0 }).1.frames_captured ≤
      (Capture.captureLoop Capture.cfgW Capture.runW.reads
        { frames_captured := 0, frame_count := 0, retry_count := 0 }).1.frames_captured := by
  refine ⟨main_exit_codes.2.2.1 defaultArgs interruptedEnv rfl, ?_, ?_⟩
  · exact (main_exit_codes.2.2.2 Capture.cfgW Capture.runW.reads 4).1
  · exact (main_exit_codes.2.2.2 Capture.cfgW Capture.runW.reads 4).2

end MainCli
